import Mathlib

/-!
Verification development for the restaurant live-ordering backend
(`backend/kitchenapi`).  The cart-synchronization, checkout-coordination and
order-commit logic of `views.py` is shallowly embedded below: the Redis
ephemeral store becomes an explicit `RedisState`, the relational store a `DB`
record, channel-layer broadcasts a list of `Message`s, and each HTTP handler a
pure Lean function threading these states.  Prices are modelled as fixed-point
integers (the number of currency minor units), matching the spec's fixed-point
currency model.
-/

/-- A menu item row in the durable store (`MenuItem` model). -/
structure MenuItem where
  id : Nat
  name : String
  description : String
  price : Int
  category : String
  is_available : Bool
deriving Repr, DecidableEq

/-- The denormalized menu-item fields captured inside a cart snapshot
(`CartItemSchema.menu_item`, serialized by `sync_cart`). -/
structure MenuItemSnap where
  id : Nat
  name : String
  description : String
  price : Int
  category : String
  is_available : Bool
  image : Option String
deriving Repr, DecidableEq

/-- One cart line of a snapshot (`CartItemSchema`).  `quantity` is a plain
machine integer in the request schema, so negative or zero values are
representable. -/
structure CartLine where
  menu_item_id : Nat
  menu_item : MenuItemSnap
  quantity : Int
deriving Repr, DecidableEq

/-- A full cart snapshot (`CartDataSchema`): ordered lines plus the writer's
logical version stamp `last_updated`. -/
structure CartSnapshot where
  items : List CartLine
  last_updated : Int
deriving Repr, DecidableEq

/-- Checkout-in-progress state stored under `checkout:{user_id}`. -/
structure CheckoutData where
  payment_method : Option String
  special_instructions : String
deriving Repr, DecidableEq

/-- The ephemeral key-value store.  The three key families the views use are
`cart:{u}`, `cart:{u}:last_updated` and `checkout:{u}`; each is modelled as a
map from user id to an optional value (absent = key not present / expired). -/
structure RedisState where
  cart : Nat → Option CartSnapshot
  lastUpdated : Nat → Option Int
  checkout : Nat → Option CheckoutData

/-- A durable table row (`Table` model; `qr_code` is irrelevant here). -/
structure TableRow where
  table_number : Int
  is_occupied : Bool
deriving Repr, DecidableEq

/-- A durable order line (`OrderItem` model). -/
structure OrderItemRow where
  menu_item_id : Nat
  quantity : Int
  price_at_order : Int
  special_instructions : String
deriving Repr, DecidableEq

/-- A durable order (`Order` model).  `user` is the id of the owning user;
`items` is the order's collection of `OrderItem` rows. -/
structure OrderRow where
  id : Nat
  user : Nat
  table_number : Int
  status : String
  special_instructions : String
  payment_method : String
  payment_status : Bool
  total_amount : Int
  items : List OrderItemRow
deriving Repr, DecidableEq

/-- The durable relational store. -/
structure DB where
  menu : List MenuItem
  tables : List TableRow
  orders : List OrderRow
deriving Repr, DecidableEq

/-- Messages published on the channel layer.  `cart_update`,
`checkout_status` and `checkout_complete` go to group `cart_{user}`;
`new_order` and `order_update` go to the fixed `kitchen` group. -/
inductive Message where
  | cart_update (user : Nat) (cart : CartSnapshot)
  | checkout_status (user : Nat) (in_progress : Bool)
      (payment_method : Option String) (special_instructions : String)
  | checkout_complete (user : Nat) (order_id : Nat)
  | new_order (order : OrderRow)
  | order_update (order : OrderRow)
deriving Repr, DecidableEq

/-- Request body of `POST /checkout/complete` (`CreateOrderFromCartSchema`). -/
structure CreateOrderFromCart where
  user_id : Nat
  table_number : Int
  payment_method : String
  special_instructions : String
deriving Repr, DecidableEq

/-- Request body of `POST /cart/sync` (`CartSyncRequestSchema`). -/
structure CartSyncRequest where
  user_id : Nat
  cart : CartSnapshot
deriving Repr, DecidableEq

deriving instance DecidableEq for Except

/-- `MenuItem.objects.get(id=...)` / existence lookup in the durable menu. -/
def findMenu (menu : List MenuItem) (i : Nat) : Option MenuItem :=
  menu.find? (fun m => m.id == i)

/-- `Table.objects.get_or_create(table_number=..., defaults={"is_occupied": True})`:
returns the (possibly extended) table list and the resolved row. -/
def getOrCreateTable (tables : List TableRow) (n : Int) : List TableRow × TableRow :=
  match tables.find? (fun t => t.table_number == n) with
  | some t => (tables, t)
  | none => (tables ++ [⟨n, true⟩], ⟨n, true⟩)

/-- `total_amount = sum(item["menu_item"]["price"] * item["quantity"] for item in cart_items)`:
a left fold from 0, exactly as Python's `sum`. -/
def cartTotal (items : List CartLine) : Int :=
  items.foldl (fun acc l => acc + l.menu_item.price * l.quantity) 0

/-- The `OrderItem.objects.create(...)` payload for one cart line: quantity and
`price_at_order` are copied from the snapshot (`item["menu_item"]["price"]`),
never re-read from the durable menu. -/
def mkOrderItem (l : CartLine) : OrderItemRow :=
  ⟨l.menu_item_id, l.quantity, l.menu_item.price, ""⟩

/-- The order-item creation loop of `complete_checkout`.  Each line first does
`MenuItem.objects.get(id=item["menu_item_id"])`; if that raises (item deleted
from the durable menu), the loop stops and the items created so far remain.
Returns the rows actually created and whether the whole loop succeeded. -/
def buildItems (menu : List MenuItem) : List CartLine → List OrderItemRow × Bool
  | [] => ([], true)
  | l :: ls =>
    match findMenu menu l.menu_item_id with
    | none => ([], false)
    | some _ =>
      let r := buildItems menu ls
      (mkOrderItem l :: r.1, r.2)

/-- Every cart line's `menu_item_id` resolves in the durable menu. -/
def allResolve (menu : List MenuItem) (lines : List CartLine) : Bool :=
  lines.all (fun l => (findMenu menu l.menu_item_id).isSome)

/-- The `redis_client.pipeline()` of three `delete`s at the end of
`complete_checkout`, modelled as one atomic multi-key delete of
`cart:{u}`, `cart:{u}:last_updated` and `checkout:{u}`. -/
def clearUserKeys (r : RedisState) (u : Nat) : RedisState :=
  { cart := fun v => if v = u then none else r.cart v
    lastUpdated := fun v => if v = u then none else r.lastUpdated v
    checkout := fun v => if v = u then none else r.checkout v }

/-- Result of one `complete_checkout` request: the durable store, the
ephemeral store, the messages published during the request, and the HTTP
response (`Except.error` = a 400 response with an error body). -/
structure CompleteResult where
  db : DB
  redis : RedisState
  published : List Message
  response : Except String OrderRow

/-- `POST /checkout/complete` (`complete_checkout` in `views.py`).
`authUser` is the id of `request.auth` (the token user); `data.user_id` is the
body field the cart is read from.  Mirrors the source line by line:
read `cart:{user_id}`; 400 if absent or empty; get-or-create the table;
compute the total from captured snapshot prices; `Order.objects.create`
(durable at once, `user=request.auth`, `status="pending"`,
`payment_status=(payment_method != "cash")`); then the item loop, whose
failure aborts the request after the order row is already durable; on full
success the pipeline delete and the two broadcasts run and the order is
returned. -/
def complete_checkout (authUser : Nat) (data : CreateOrderFromCart)
    (db : DB) (r : RedisState) (published : List Message) : CompleteResult :=
  match r.cart data.user_id with
  | none => ⟨db, r, published, Except.error ("Cart is empty")⟩
  | some cart =>
    if cart.items.isEmpty then ⟨db, r, published, Except.error ("Cart is empty")⟩
    else
      let tr := getOrCreateTable db.tables data.table_number
      let total := cartTotal cart.items
      let bi := buildItems db.menu cart.items
      let order : OrderRow :=
        { id := db.orders.length + 1
          user := authUser
          table_number := tr.2.table_number
          status := "pending"
          special_instructions := data.special_instructions
          payment_method := data.payment_method
          payment_status := data.payment_method != "cash"
          total_amount := total
          items := bi.1 }
      let db' : DB := { db with tables := tr.1, orders := db.orders ++ [order] }
      if bi.2 then
        ⟨db', clearUserKeys r data.user_id,
          published ++ [Message.checkout_complete data.user_id order.id,
                        Message.new_order order],
          Except.ok order⟩
      else
        ⟨db', r, published, Except.error ("MenuItem matching query does not exist.")⟩

/-- `POST /cart/sync` (`sync_cart` in `views.py`): stores the snapshot under
`cart:{user_id}` and its version under `cart:{user_id}:last_updated` (both
with the cart TTL), publishes a `cart_update` with the full snapshot to
`cart_{user_id}`, and returns `success: true`.  The handler performs no
content validation and never consults the durable menu. -/
def sync_cart (data : CartSyncRequest) (r : RedisState) (published : List Message) :
    RedisState × List Message × Bool :=
  let u := data.user_id
  let r' : RedisState :=
    { cart := fun v => if v = u then some data.cart else r.cart v
      lastUpdated := fun v => if v = u then some data.cart.last_updated else r.lastUpdated v
      checkout := r.checkout }
  (r', published ++ [Message.cart_update u data.cart], true)

/-- `GET /cart/sync` (`get_cart` in `views.py`): absent cart gives `null`;
if `last_updated` is supplied and equals the stored snapshot's version the
handler returns `null` (no-change signal); otherwise the full snapshot. -/
def get_cart (user_id : Nat) (last_updated : Option Int) (r : RedisState) :
    Option CartSnapshot :=
  match r.cart user_id with
  | none => none
  | some cart =>
    match last_updated with
    | some v => if cart.last_updated = v then none else some cart
    | none => some cart

/-- The valid order statuses (`Order.STATUS_CHOICES` in `models.py`). -/
def statusChoices : List String :=
  ["pending", "preparing", "ready", "delivered", "completed", "cancelled"]

/-- `PUT /kitchen/orders/{order_id}/status` (the second `update_order_status`
in `views.py`, staff variant): look the order up (404 if absent), set the
requested status with no validation against `STATUS_CHOICES`, auto-advance
`delivered` to `completed` when the payment method is not `"cash"`, save, and
return the saved order.  (The `order_update` broadcast is omitted here; it
carries the same saved order.) -/
def update_order_status_put (db : DB) (order_id : Nat) (status : String) :
    DB × Except String OrderRow :=
  match db.orders.find? (fun o => o.id == order_id) with
  | none => (db, Except.error ("Order not found"))
  | some ord =>
    let newStatus :=
      if status == "delivered" && ord.payment_method != "cash" then "completed" else status
    let ord' := { ord with status := newStatus }
    ({ db with orders := db.orders.map (fun o => if o.id == order_id then ord' else o) },
     Except.ok ord')

/-- `PATCH /orders/{order_id}/status` (the first `update_order_status` in
`views.py`, customer variant): look the order up (404 if absent), reject a
status outside `Order.STATUS_CHOICES` with a 400 `"Invalid status"` and no
state change, otherwise save the status as requested (no auto-advance). -/
def update_order_status_patch (db : DB) (order_id : Nat) (status : String) :
    DB × Except String OrderRow :=
  match db.orders.find? (fun o => o.id == order_id) with
  | none => (db, Except.error ("Not Found"))
  | some ord =>
    if statusChoices.contains status then
      let ord' := { ord with status := status }
      ({ db with orders := db.orders.map (fun o => if o.id == order_id then ord' else o) },
       Except.ok ord')
    else
      (db, Except.error ("Invalid status"))

/-! ### Helper lemmas about the commit path -/

theorem foldl_price_eq_sum (items : List CartLine) (a : Int) :
    items.foldl (fun acc l => acc + l.menu_item.price * l.quantity) a =
      a + (items.map (fun l => l.menu_item.price * l.quantity)).sum := by
  induction items generalizing a with
  | nil => simp
  | cons l ls ih =>
    simp only [List.foldl_cons, List.map_cons, List.sum_cons, ih]
    ring

theorem cartTotal_eq_sum (items : List CartLine) :
    cartTotal items = (items.map (fun l => l.menu_item.price * l.quantity)).sum := by
  simpa using foldl_price_eq_sum items 0

theorem buildItems_of_allResolve (menu : List MenuItem) (lines : List CartLine)
    (h : allResolve menu lines = true) :
    buildItems menu lines = (lines.map mkOrderItem, true) := by
  induction lines with
  | nil => rfl
  | cons l ls ih =>
    simp only [allResolve, List.all_cons, Bool.and_eq_true] at h
    obtain ⟨h1, h2⟩ := h
    obtain ⟨m, hm⟩ := Option.isSome_iff_exists.mp h1
    simp only [buildItems, hm, ih h2, List.map_cons]

theorem allResolve_of_buildItems (menu : List MenuItem) (lines : List CartLine)
    (h : (buildItems menu lines).2 = true) :
    allResolve menu lines = true := by
  induction lines with
  | nil => rfl
  | cons l ls ih =>
    simp only [buildItems] at h
    cases hm : findMenu menu l.menu_item_id with
    | none => rw [hm] at h; exact absurd h (by simp)
    | some m =>
      rw [hm] at h
      simp only [allResolve, List.all_cons, Bool.and_eq_true]
      exact ⟨by simp [hm], ih h⟩

/-- The order row that a fully successful `complete_checkout` persists. -/
def successOrder (authUser : Nat) (data : CreateOrderFromCart) (db : DB)
    (cart : CartSnapshot) : OrderRow :=
  { id := db.orders.length + 1
    user := authUser
    table_number := (getOrCreateTable db.tables data.table_number).2.table_number
    status := "pending"
    special_instructions := data.special_instructions
    payment_method := data.payment_method
    payment_status := data.payment_method != "cash"
    total_amount := cartTotal cart.items
    items := cart.items.map mkOrderItem }

theorem complete_checkout_success_shape (authUser : Nat) (data : CreateOrderFromCart)
    (db : DB) (r : RedisState) (pub : List Message) (cart : CartSnapshot)
    (hc : r.cart data.user_id = some cart) (hne : cart.items ≠ [])
    (hres : allResolve db.menu cart.items = true) :
    complete_checkout authUser data db r pub =
      ⟨{ db with tables := (getOrCreateTable db.tables data.table_number).1
                 orders := db.orders ++ [successOrder authUser data db cart] },
        clearUserKeys r data.user_id,
        pub ++ [Message.checkout_complete data.user_id (db.orders.length + 1),
                Message.new_order (successOrder authUser data db cart)],
        Except.ok (successOrder authUser data db cart)⟩ := by
  have hemp : cart.items.isEmpty = false := by
    cases h : cart.items with
    | nil => exact absurd h hne
    | cons a as => simp [h]
  simp only [complete_checkout, hc, hemp, Bool.false_eq_true, if_false,
    buildItems_of_allResolve db.menu cart.items hres, successOrder, if_true]

theorem complete_checkout_ok_inv (authUser : Nat) (data : CreateOrderFromCart)
    (db : DB) (r : RedisState) (pub : List Message) (o : OrderRow)
    (h : (complete_checkout authUser data db r pub).response = Except.ok o) :
    ∃ cart, r.cart data.user_id = some cart ∧ cart.items ≠ [] ∧
      allResolve db.menu cart.items = true := by
  cases hc : r.cart data.user_id with
  | none =>
    rw [complete_checkout, hc] at h
    exact Except.noConfusion h
  | some cart =>
    refine ⟨cart, rfl, ?_, ?_⟩
    · intro hnil
      rw [complete_checkout, hc] at h
      simp only [hnil, List.isEmpty_nil, if_true] at h
      exact Except.noConfusion h
    · rw [complete_checkout, hc] at h
      by_cases hemp : cart.items.isEmpty
      · simp only [hemp, if_true] at h
        exact Except.noConfusion h
      · simp only [hemp, if_false] at h
        cases hbi : (buildItems db.menu cart.items).2 with
        | false =>
          rw [hbi] at h
          simp only [Bool.false_eq_true, if_false] at h
          exact Except.noConfusion h
        | true => exact allResolve_of_buildItems db.menu cart.items hbi

/-! ### Concrete fixtures (the spec's worked scenario: user 42, one cart line
of menu item 5 at captured price 100, quantity 2, version 1000; the durable
menu deliberately lists item 5 at a *different* current price, 999, so the
theorems witness that the captured price is used, never a fresh lookup). -/

def snapDosa : MenuItemSnap :=
  { id := 5, name := "Dosa", description := "", price := 100, category := "Main",
    is_available := true, image := none }

def s1 : CartSnapshot :=
  { items := [{ menu_item_id := 5, menu_item := snapDosa, quantity := 2 }],
    last_updated := 1000 }

def r1 : RedisState :=
  { cart := fun v => if v = 42 then some s1 else none
    lastUpdated := fun v => if v = 42 then some 1000 else none
    checkout := fun v =>
      if v = 42 then some { payment_method := some "cash", special_instructions := "" }
      else none }

def db1 : DB :=
  { menu := [{ id := 5, name := "Dosa", description := "", price := 999,
               category := "Main", is_available := true }]
    tables := [], orders := [] }

def d1 : CreateOrderFromCart :=
  { user_id := 42, table_number := 7, payment_method := "cash", special_instructions := "" }

def emptyRedis : RedisState :=
  { cart := fun _ => none, lastUpdated := fun _ => none, checkout := fun _ => none }

/-! ### Claim theorems -/

/-- C1: for every non-empty stored cart snapshot (all referenced menu items
present, which is the condition under which the commit succeeds),
`complete_checkout` appends exactly one order to the durable store; its
`total_amount` is the sum over cart lines of captured snapshot price times
quantity, and it has exactly one order line per cart line, copying that line's
quantity and captured unit price — no fresh menu-price lookup: the durable
menu's current prices do not occur in the conclusion. -/
theorem complete_creates_one_order_with_captured_prices (authUser : Nat)
    (data : CreateOrderFromCart) (db : DB) (r : RedisState) (pub : List Message)
    (cart : CartSnapshot) (hc : r.cart data.user_id = some cart)
    (hne : cart.items ≠ []) (hres : allResolve db.menu cart.items = true) :
    ∃ o, (complete_checkout authUser data db r pub).response = Except.ok o ∧
      (complete_checkout authUser data db r pub).db.orders = db.orders ++ [o] ∧
      o.total_amount = (cart.items.map (fun l => l.menu_item.price * l.quantity)).sum ∧
      o.items = cart.items.map
        (fun l => (⟨l.menu_item_id, l.quantity, l.menu_item.price, ""⟩ : OrderItemRow)) := by
  have h := complete_checkout_success_shape authUser data db r pub cart hc hne hres
  refine ⟨successOrder authUser data db cart, ?_, ?_, ?_, ?_⟩
  · rw [h]
  · rw [h]
  · simp [successOrder, cartTotal_eq_sum]
  · simp [successOrder, mkOrderItem]

theorem complete_creates_one_order_with_captured_prices_witness :
    ∃ o, (complete_checkout 7 d1 db1 r1 []).response = Except.ok o ∧
      (complete_checkout 7 d1 db1 r1 []).db.orders = db1.orders ++ [o] ∧
      o.total_amount = (s1.items.map (fun l => l.menu_item.price * l.quantity)).sum ∧
      o.items = s1.items.map
        (fun l => (⟨l.menu_item_id, l.quantity, l.menu_item.price, ""⟩ : OrderItemRow)) :=
  complete_creates_one_order_with_captured_prices 7 d1 db1 r1 [] s1 (by decide)
    (by decide) (by decide)

/-- C3: when the stored cart snapshot is absent or has zero lines,
`complete_checkout` answers the `"Cart is empty"` 400 error, creates no order
(the durable store is exactly as before) and leaves the whole ephemeral store
and the publish log unchanged. -/
theorem complete_empty_cart_no_order (authUser : Nat) (data : CreateOrderFromCart)
    (db : DB) (r : RedisState) (pub : List Message)
    (h : r.cart data.user_id = none ∨
         ∃ c, r.cart data.user_id = some c ∧ c.items = []) :
    (complete_checkout authUser data db r pub).response = Except.error ("Cart is empty") ∧
    (complete_checkout authUser data db r pub).db = db ∧
    (complete_checkout authUser data db r pub).redis = r ∧
    (complete_checkout authUser data db r pub).published = pub := by
  rcases h with h | ⟨c, hc, hcitems⟩
  · simp [complete_checkout, h]
  · simp [complete_checkout, hc, hcitems]

theorem complete_empty_cart_no_order_witness :
    (complete_checkout 7 d1 db1 emptyRedis []).response = Except.error ("Cart is empty") ∧
    (complete_checkout 7 d1 db1 emptyRedis []).db = db1 ∧
    (complete_checkout 7 d1 db1 emptyRedis []).redis = emptyRedis ∧
    (complete_checkout 7 d1 db1 emptyRedis []).published = ([] : List Message) :=
  complete_empty_cart_no_order 7 d1 db1 emptyRedis [] (Or.inl rfl)

/-- C5: with a snapshot `S` stored for user `u`, `get_cart` returns absent
when the supplied `last_updated` equals the stored version, and the full
snapshot when `last_updated` is omitted or is any other value. -/
theorem get_cart_version_filter (u : Nat) (S : CartSnapshot) (r : RedisState)
    (w : Int) (hc : r.cart u = some S) (hw : w ≠ S.last_updated) :
    get_cart u (some S.last_updated) r = none ∧
    get_cart u none r = some S ∧
    get_cart u (some w) r = some S := by
  refine ⟨?_, ?_, ?_⟩
  · simp [get_cart, hc]
  · simp [get_cart, hc]
  · simp [get_cart, hc, Ne.symm hw]

theorem get_cart_version_filter_witness :
    get_cart 42 (some 1000) r1 = none ∧
    get_cart 42 none r1 = some s1 ∧
    get_cart 42 (some 999) r1 = some s1 := by
  have h := get_cart_version_filter 42 s1 r1 999 (by decide) (by decide)
  exact ⟨h.1, h.2.1, h.2.2⟩

/-- C7: every successful `complete_checkout` creates its order with
`status = "pending"` and `payment_status = (payment_method != "cash")`:
`false` for cash, `true` for any non-cash method such as card or upi. -/
theorem complete_order_pending_and_payment_flag (authUser : Nat)
    (data : CreateOrderFromCart) (db : DB) (r : RedisState) (pub : List Message)
    (cart : CartSnapshot) (hc : r.cart data.user_id = some cart)
    (hne : cart.items ≠ []) (hres : allResolve db.menu cart.items = true) :
    ∃ o, (complete_checkout authUser data db r pub).response = Except.ok o ∧
      o.status = "pending" ∧
      o.payment_status = (data.payment_method != "cash") ∧
      (data.payment_method = "cash" → o.payment_status = false) ∧
      (data.payment_method ≠ "cash" → o.payment_status = true) := by
  have h := complete_checkout_success_shape authUser data db r pub cart hc hne hres
  refine ⟨successOrder authUser data db cart, by rw [h], rfl, rfl, ?_, ?_⟩
  · intro hcash
    simp [successOrder, hcash]
  · intro hne2
    simp [successOrder, bne_iff_ne, hne2]

theorem complete_order_pending_and_payment_flag_witness :
    ∃ o, (complete_checkout 7 d1 db1 r1 []).response = Except.ok o ∧
      o.status = "pending" ∧
      o.payment_status = (d1.payment_method != "cash") ∧
      (d1.payment_method = "cash" → o.payment_status = false) ∧
      (d1.payment_method ≠ "cash" → o.payment_status = true) :=
  complete_order_pending_and_payment_flag 7 d1 db1 r1 [] s1 (by decide) (by decide)
    (by decide)

/-- C9: after every successful `complete_checkout`, the single pipeline delete
has removed the user's cart key, cart last-updated key and checkout key
together — none of the three remains — while every other user's three keys
hold exactly their previous values. -/
theorem complete_clears_user_keys_atomically (authUser : Nat)
    (data : CreateOrderFromCart) (db : DB) (r : RedisState) (pub : List Message)
    (o : OrderRow) (v : Nat)
    (h : (complete_checkout authUser data db r pub).response = Except.ok o)
    (hv : v ≠ data.user_id) :
    (complete_checkout authUser data db r pub).redis.cart data.user_id = none ∧
    (complete_checkout authUser data db r pub).redis.lastUpdated data.user_id = none ∧
    (complete_checkout authUser data db r pub).redis.checkout data.user_id = none ∧
    (complete_checkout authUser data db r pub).redis.cart v = r.cart v ∧
    (complete_checkout authUser data db r pub).redis.lastUpdated v = r.lastUpdated v ∧
    (complete_checkout authUser data db r pub).redis.checkout v = r.checkout v := by
  obtain ⟨cart, hc, hne, hres⟩ :=
    complete_checkout_ok_inv authUser data db r pub o h
  rw [complete_checkout_success_shape authUser data db r pub cart hc hne hres]
  refine ⟨?_, ?_, ?_, ?_, ?_, ?_⟩ <;> simp [clearUserKeys, hv]

theorem complete_clears_user_keys_atomically_witness :
    (complete_checkout 7 d1 db1 r1 []).redis.cart 42 = none ∧
    (complete_checkout 7 d1 db1 r1 []).redis.lastUpdated 42 = none ∧
    (complete_checkout 7 d1 db1 r1 []).redis.checkout 42 = none ∧
    (complete_checkout 7 d1 db1 r1 []).redis.cart 9 = r1.cart 9 ∧
    (complete_checkout 7 d1 db1 r1 []).redis.lastUpdated 9 = r1.lastUpdated 9 ∧
    (complete_checkout 7 d1 db1 r1 []).redis.checkout 9 = r1.checkout 9 :=
  complete_clears_user_keys_atomically 7 d1 db1 r1 []
    (successOrder 7 d1 db1 s1) 9
    (by rw [complete_checkout_success_shape 7 d1 db1 r1 [] s1 (by decide) (by decide)
      (by decide)]) (by decide)

/-- C10 (implicit behavior): `complete_checkout` reads and clears the cart and
checkout keys of the *body* `user_id`, but the created order is owned by the
*authenticated* user.  When the two differ, the authenticated user gets an
order built from (and consuming) the other user's cart. -/
theorem complete_attributes_order_to_auth_user (authUser : Nat)
    (data : CreateOrderFromCart) (db : DB) (r : RedisState) (pub : List Message)
    (cart : CartSnapshot) (hc : r.cart data.user_id = some cart)
    (hne : cart.items ≠ []) (hres : allResolve db.menu cart.items = true)
    (hdiff : data.user_id ≠ authUser) :
    ∃ o, (complete_checkout authUser data db r pub).response = Except.ok o ∧
      o.user = authUser ∧
      o.items = cart.items.map mkOrderItem ∧
      (complete_checkout authUser data db r pub).redis.cart data.user_id = none ∧
      (complete_checkout authUser data db r pub).redis.lastUpdated data.user_id = none ∧
      (complete_checkout authUser data db r pub).redis.checkout data.user_id = none := by
  have h := complete_checkout_success_shape authUser data db r pub cart hc hne hres
  rw [h]
  exact ⟨successOrder authUser data db cart, rfl, rfl, rfl,
    by simp [clearUserKeys], by simp [clearUserKeys], by simp [clearUserKeys]⟩

theorem complete_attributes_order_to_auth_user_witness :
    ∃ o, (complete_checkout 7 d1 db1 r1 []).response = Except.ok o ∧
      o.user = 7 ∧
      o.items = s1.items.map mkOrderItem ∧
      (complete_checkout 7 d1 db1 r1 []).redis.cart 42 = none ∧
      (complete_checkout 7 d1 db1 r1 []).redis.lastUpdated 42 = none ∧
      (complete_checkout 7 d1 db1 r1 []).redis.checkout 42 = none :=
  complete_attributes_order_to_auth_user 7 d1 db1 r1 [] s1 (by decide) (by decide)
    (by decide) (by decide)

/-! ### The kitchen status update (C6, C8) -/

theorem find_after_status_update (orders : List OrderRow) (oid : Nat)
    (ord newOrd : OrderRow) (hid : newOrd.id = ord.id)
    (h : orders.find? (fun o => o.id == oid) = some ord) :
    (orders.map (fun o => if o.id == oid then newOrd else o)).find?
      (fun o => o.id == oid) = some newOrd := by
  induction orders with
  | nil => exact absurd h (by simp)
  | cons a as ih =>
    by_cases ha : (a.id == oid) = true
    · rw [List.find?_cons_of_pos (p := fun o : OrderRow => o.id == oid) _ ha] at h
      injection h with h
      subst h
      have hn : (newOrd.id == oid) = true := by
        rw [hid]; exact ha
      simp only [List.map_cons, ha, if_true]
      exact List.find?_cons_of_pos (p := fun o : OrderRow => o.id == oid) _ hn
    · rw [List.find?_cons_of_neg (p := fun o : OrderRow => o.id == oid) _ ha] at h
      simp only [List.map_cons, if_neg ha]
      rw [List.find?_cons_of_neg (p := fun o : OrderRow => o.id == oid) _ ha]
      exact ih h

/-- C6: a staff `PUT .../status` request for `"delivered"` leaves an order
whose payment method is not `"cash"` with status `"completed"` in that same
update (both in the response and in the saved store), while a `"cash"` order
is left at `"delivered"`. -/
theorem put_delivered_auto_advances (db : DB) (oid : Nat) (ord : OrderRow)
    (h : db.orders.find? (fun o => o.id == oid) = some ord) :
    (ord.payment_method ≠ "cash" →
      ∃ o, (update_order_status_put db oid "delivered").2 = Except.ok o ∧
        o.status = "completed" ∧
        (update_order_status_put db oid "delivered").1.orders.find?
          (fun x => x.id == oid) = some o) ∧
    (ord.payment_method = "cash" →
      ∃ o, (update_order_status_put db oid "delivered").2 = Except.ok o ∧
        o.status = "delivered" ∧
        (update_order_status_put db oid "delivered").1.orders.find?
          (fun x => x.id == oid) = some o) := by
  constructor
  · intro hpm
    have hb : (ord.payment_method != "cash") = true := bne_iff_ne.mpr hpm
    refine ⟨{ ord with status := "completed" }, ?_, rfl, ?_⟩
    · simp [update_order_status_put, h, hb]
    · simp only [update_order_status_put, h]
      simp only [hb, Bool.and_true, Bool.and_self, beq_self_eq_true, if_true]
      exact find_after_status_update db.orders oid ord _ rfl h
  · intro hpm
    have hb : (ord.payment_method != "cash") = false := by
      simp [hpm]
    refine ⟨{ ord with status := "delivered" }, ?_, rfl, ?_⟩
    · simp [update_order_status_put, h, hb]
    · simp only [update_order_status_put, h]
      simp only [hb, Bool.and_false, if_false]
      exact find_after_status_update db.orders oid ord _ rfl h

def ordCard : OrderRow :=
  { id := 1, user := 3, table_number := 4, status := "ready", special_instructions := "",
    payment_method := "card", payment_status := true, total_amount := 500, items := [] }

def ordCash : OrderRow :=
  { id := 2, user := 3, table_number := 4, status := "ready", special_instructions := "",
    payment_method := "cash", payment_status := false, total_amount := 300, items := [] }

def dbKitchen : DB := { menu := [], tables := [], orders := [ordCard, ordCash] }

theorem put_delivered_auto_advances_witness :
    (∃ o, (update_order_status_put dbKitchen 1 "delivered").2 = Except.ok o ∧
      o.status = "completed" ∧
      (update_order_status_put dbKitchen 1 "delivered").1.orders.find?
        (fun x => x.id == 1) = some o) ∧
    (∃ o, (update_order_status_put dbKitchen 2 "delivered").2 = Except.ok o ∧
      o.status = "delivered" ∧
      (update_order_status_put dbKitchen 2 "delivered").1.orders.find?
        (fun x => x.id == 2) = some o) :=
  ⟨(put_delivered_auto_advances dbKitchen 1 ordCard (by decide)).1 (by decide),
   (put_delivered_auto_advances dbKitchen 2 ordCash (by decide)).2 rfl⟩

/-- C8 (code bug): the claim requires *both* status endpoints to reject a
status outside `Order.STATUS_CHOICES` with a 4xx and no state change.  The
customer PATCH handler does exactly that, but the staff PUT handler performs
no validation: the unknown status `"bogus"` is persisted and the request
succeeds with a 200, contradicting the model's own `STATUS_CHOICES`
declaration. -/
theorem kitchen_put_skips_status_validation :
    statusChoices.contains "bogus" = false ∧
    (update_order_status_patch dbKitchen 2 "bogus").2 = Except.error ("Invalid status") ∧
    (update_order_status_patch dbKitchen 2 "bogus").1 = dbKitchen ∧
    (update_order_status_put dbKitchen 2 "bogus").2 =
      Except.ok { ordCash with status := "bogus" } ∧
    (update_order_status_put dbKitchen 2 "bogus").1.orders =
      [ordCard, { ordCash with status := "bogus" }] := by decide

/-! ### Failure atomicity of the commit (C2) and cart-sync validation (C4) -/

def db2 : DB := { menu := [], tables := [], orders := [] }

/-- C2 (code bug): the order write is not atomic.  With user 42's cart holding
one line of menu item 5 (captured price 100, quantity 2) but item 5 deleted
from the durable menu, `complete_checkout` persists the Order row (total
200, zero of its one line) *before* the item loop raises, answers a 400, and
does not clear the cart — a partial order is left behind in durable storage,
contradicting the spec's all-or-nothing commit. -/
theorem complete_failure_leaves_order_behind :
    (complete_checkout 42 d1 db2 r1 []).response =
      Except.error ("MenuItem matching query does not exist.") ∧
    (complete_checkout 42 d1 db2 r1 []).db.orders =
      [{ id := 1, user := 42, table_number := 7, status := "pending",
         special_instructions := "", payment_method := "cash",
         payment_status := false, total_amount := 200, items := [] }] ∧
    (complete_checkout 42 d1 db2 r1 []).redis.cart 42 = some s1 := by decide

def badLine : CartLine :=
  { menu_item_id := 999
    menu_item := { id := 999, name := "Ghost", description := "", price := 50,
                   category := "Main", is_available := true, image := none }
    quantity := 0 }

def badSnapshot : CartSnapshot := { items := [badLine], last_updated := 5 }

def badReq : CartSyncRequest := { user_id := 1, cart := badSnapshot }

/-- C4 counterexample: a snapshot whose single line has quantity 0 and
references menu item id 999 — absent from the durable menu `db1.menu` — is
nevertheless stored for the user and republished as a `cart_update` with the
call reporting success: `sync_cart` rejects nothing. -/
theorem sync_cart_accepts_invalid_snapshot :
    (badSnapshot.items.all (fun l => 1 ≤ l.quantity)) = false ∧
    findMenu db1.menu 999 = none ∧
    (sync_cart badReq emptyRedis []).1.cart 1 = some badSnapshot ∧
    (sync_cart badReq emptyRedis []).2.1 = [Message.cart_update 1 badSnapshot] ∧
    (sync_cart badReq emptyRedis []).2.2 = true := by decide

/-- C4 amended: `sync_cart` performs no content validation at all — every
well-typed snapshot (any quantities, any menu item references; the durable
menu is never consulted) is stored under the user's cart keys, republished to
the user's group as a `cart_update` carrying the full snapshot, and the call
reports success; every other user's keys are untouched. -/
theorem sync_cart_stores_and_publishes_every_snapshot (data : CartSyncRequest)
    (r : RedisState) (pub : List Message) (v : Nat) (hv : v ≠ data.user_id) :
    (sync_cart data r pub).1.cart data.user_id = some data.cart ∧
    (sync_cart data r pub).1.lastUpdated data.user_id = some data.cart.last_updated ∧
    (sync_cart data r pub).2.1 = pub ++ [Message.cart_update data.user_id data.cart] ∧
    (sync_cart data r pub).2.2 = true ∧
    (sync_cart data r pub).1.cart v = r.cart v ∧
    (sync_cart data r pub).1.lastUpdated v = r.lastUpdated v ∧
    (sync_cart data r pub).1.checkout = r.checkout := by
  refine ⟨by simp [sync_cart], by simp [sync_cart], rfl, rfl,
    by simp [sync_cart, hv], by simp [sync_cart, hv], rfl⟩

theorem sync_cart_stores_and_publishes_every_snapshot_witness :
    (sync_cart badReq emptyRedis []).1.cart badReq.user_id = some badReq.cart ∧
    (sync_cart badReq emptyRedis []).1.lastUpdated badReq.user_id =
      some badReq.cart.last_updated ∧
    (sync_cart badReq emptyRedis []).2.1 =
      [] ++ [Message.cart_update badReq.user_id badReq.cart] ∧
    (sync_cart badReq emptyRedis []).2.2 = true ∧
    (sync_cart badReq emptyRedis []).1.cart 2 = emptyRedis.cart 2 ∧
    (sync_cart badReq emptyRedis []).1.lastUpdated 2 = emptyRedis.lastUpdated 2 ∧
    (sync_cart badReq emptyRedis []).1.checkout = emptyRedis.checkout :=
  sync_cart_stores_and_publishes_every_snapshot badReq emptyRedis [] 2 (by decide)
